import Mathlib

/-!
Verification of the sleep-tracking note poster.

The development shallowly embeds the repository's Python modules:

* `src/formatter.py` — pure formatting of sleep/wake entries;
* `src/garmin_client.py` — the sleep-source adapter (`get_sleep_data`);
* `src/github_client.py` — the issue-tracker adapter (`post_comment`,
  `_is_duplicate`, `_add_metadata_footer`, `verify_issue_exists`);
* `scripts/fetch_and_post.py` and `scripts/quick_note.py` — the CLI
  orchestration relevant to exit codes.

External effects (the GitHub and Garmin API calls) are passed in as
explicit outcome values (`Except` of a status or message), so each
embedded function is a pure function of its inputs.
-/

namespace SleepNotes

/-! ## Dates and times (Python `datetime.date` / `datetime.datetime`)

Python's `date` guarantees `1 <= month <= 12`, `1 <= day <= 31`; `datetime`
additionally guarantees `0 <= hour <= 23` and `0 <= minute <= 59`.  The
bounds on hour and minute matter for the two-digit rendering, so they are
carried as `Fin` fields; the date components are plain naturals. -/

structure Date where
  year : Nat
  month : Nat
  day : Nat
deriving DecidableEq, Repr

structure PyDateTime where
  year : Nat
  month : Nat
  day : Nat
  hour : Fin 24
  minute : Fin 60
deriving DecidableEq, Repr

/-- Model of Python `datetime.date()`: the calendar-date component. -/
def PyDateTime.date (t : PyDateTime) : Date :=
  ⟨t.year, t.month, t.day⟩

/-- Decimal rendering zero-padded to width 2, the semantics of `%02d`
(and of `strftime("%H")`/`strftime("%M")` for in-range values). -/
def pad2 (n : Nat) : String :=
  if n < 10 then "0" ++ Nat.repr n else Nat.repr n

/-- Decimal rendering zero-padded to width 4, the year field of
Python `date.isoformat()` (years are at most 9999 in Python). -/
def pad4 (n : Nat) : String :=
  if n < 10 then "000" ++ Nat.repr n
  else if n < 100 then "00" ++ Nat.repr n
  else if n < 1000 then "0" ++ Nat.repr n
  else Nat.repr n

/-- Model of Python `date.isoformat()`: `YYYY-MM-DD`. -/
def Date.isoformat (d : Date) : String :=
  pad4 d.year ++ "-" ++ pad2 d.month ++ "-" ++ pad2 d.day

/-! ## `src/formatter.py` -/

/-- Embeds `formatter._format_time` (`dt.strftime("%H:%M")`). -/
def format_time (dt : PyDateTime) : String :=
  pad2 dt.hour.val ++ ":" ++ pad2 dt.minute.val

/-- Embeds `formatter.format_sleep_entry`.  A `None` time renders as the
fixed placeholder `数据缺失`; a `datetime` value is always truthy in
Python, so the `if sleep_time else` test is exactly the `Option` split. -/
def format_sleep_entry (entry_date : Date)
    (sleep_time wake_time : Option PyDateTime) : String :=
  let sleep_str := match sleep_time with
    | some t => format_time t
    | none => "数据缺失"
  let wake_str := match wake_time with
    | some t => format_time t
    | none => "数据缺失"
  entry_date.isoformat ++ ": 昨日睡觉 " ++ sleep_str ++ " 今天起床 " ++ wake_str

/-- Embeds `formatter.determine_entry_date` (`wake_time.date()`). -/
def determine_entry_date (_sleep_time wake_time : PyDateTime) : Date :=
  wake_time.date

/-- Slot renderer as the specification words it: a present time renders
as zero-padded 24-hour `HH:MM`, an absent slot as the placeholder token.
Stated separately from `format_sleep_entry` so the template theorem can
talk about "the same slot function in both positions". -/
def specSlot : Option PyDateTime → String
  | some t => pad2 t.hour.val ++ ":" ++ pad2 t.minute.val
  | none => "数据缺失"

theorem repr_len_one {n : Nat} (h : n < 10) : (Nat.repr n).length = 1 := by
  interval_cases n <;> rfl

theorem repr_len_two {n : Nat} (h1 : 10 ≤ n) (h2 : n < 100) :
    (Nat.repr n).length = 2 := by
  interval_cases n <;> rfl

theorem pad2_length {n : Nat} (h : n < 100) : (pad2 n).length = 2 := by
  unfold pad2
  split
  · rw [String.length_append, repr_len_one (by assumption)]
    rfl
  · exact repr_len_two (by omega) h

/-! ## `src/github_client.py`

The PyGithub calls are passed in as outcome values: `Except Nat α` is the
result of a call that either succeeds with `α` or raises a
`GithubException` carrying the given HTTP status.  An issue's state, as
far as the client reads it, is the list of its comment bodies in the
order the comment-listing API returns them — ascending creation time,
oldest first (the GitHub REST API lists issue comments in ascending
order and PyGithub preserves that order). -/

/-- Errors raised by `GitHubClient`: `GitHubAuthError` and
`GitHubClientError`, each with its message. -/
inductive GHError where
  | auth : String → GHError
  | client : String → GHError
deriving DecidableEq, Repr

deriving instance DecidableEq for Except

/-- Model of the Python substring test `needle in hay` on lists of
characters: some contiguous run of `hay` equals `needle`. -/
def occursIn (needle : List Char) : List Char → Bool
  | [] => needle.isEmpty
  | c :: t => needle.isPrefixOf (c :: t) || occursIn needle t

/-- Tests whether a list of characters starts with the regex pattern
`\d{4}-\d{2}-\d{2}:` (four digits, dash, two digits, dash, two digits,
colon).  The pattern is fixed-length, so regex matching at a position is
exactly this test. -/
def dateShapedAt : List Char → Bool
  | y1 :: y2 :: y3 :: y4 :: '-' :: m1 :: m2 :: '-' :: d1 :: d2 :: ':' :: _ =>
      y1.isDigit && y2.isDigit && y3.isDigit && y4.isDigit &&
      m1.isDigit && m2.isDigit && d1.isDigit && d2.isDigit
  | _ => false

/-- Model of `re.search(r'\d\x7b4\x7d-\d\x7b2\x7d-\d\x7b2\x7d:', body)`:
the leftmost occurrence of the 11-character date pattern, returned as
`match.group(0)`. -/
def extractDate : List Char → Option String
  | [] => none
  | c :: t =>
      if dateShapedAt (c :: t) then some (String.mk ((c :: t).take 11))
      else extractDate t

/-- Embeds `GitHubClient._is_duplicate` applied to the comment bodies of
the issue.  The code takes `list(issue.get_comments())[:10]` — the first
10 comments in listing order — and reports a duplicate when the date
token extracted from the candidate body occurs in one of them.  (The
`except` clause around the whole method cannot fire in this pure
embedding and is omitted.) -/
def is_duplicate (comments : List String) (body : String) : Bool :=
  match extractDate body.data with
  | none => false
  | some p => (comments.take 10).any (fun c => occursIn p.data c.data)

/-- Embeds the `default_metadata` dict of
`GitHubClient._add_metadata_footer`; `now` stands for
`datetime.now(timezone.utc).isoformat()...`, passed in explicitly. -/
def default_metadata (now : String) : List (String × String) :=
  [("data-source", "garmin"), ("fetched-at", now)]

/-- Model of the Python dict merge `\x7b**a, **b\x7d` on association
lists with unique keys (Python dicts cannot repeat a key): the keys of
`a` in order, each with `b`'s value when `b` has the key, followed by
the keys of `b` not in `a`, in `b`'s order. -/
def pyMerge (a b : List (String × String)) : List (String × String) :=
  a.map (fun p => (p.1, ((b.lookup p.1).getD p.2))) ++
    b.filter (fun p => (a.lookup p.1).isNone)

/-- Embeds `GitHubClient._add_metadata_footer` (metadata `none` is the
empty dict after the `if metadata is None` guard). -/
def add_metadata_footer (body : String) (metadata : List (String × String))
    (now : String) : String :=
  let final_metadata := pyMerge (default_metadata now) metadata
  let meta_parts := final_metadata.map (fun p => p.1 ++ ": " ++ p.2)
  let meta_comment := "<!-- " ++ String.intercalate ", " meta_parts ++ " -->"
  body ++ "\n\n" ++ meta_comment

/-- Embeds `GitHubClient.post_comment`.  `getIssue` is the outcome of
`self.repo.get_issue(issue_number)`: the comment bodies on success, the
`GithubException` status on failure.  The result carries the returned
boolean and, when a comment was created, the body passed to
`issue.create_comment`. -/
def post_comment (getIssue : Except Nat (List String)) (body : String)
    (metadata : List (String × String)) (now : String) :
    Except GHError (Bool × Option String) :=
  match getIssue with
  | .error s =>
      if s = 401 then .error (.auth "Invalid GitHub token")
      else if s = 404 then .error (.client "Issue or repository not found")
      else .error (.client "Failed to post comment")
  | .ok comments =>
      if is_duplicate comments body then .ok (false, none)
      else
        let comment_body := add_metadata_footer body metadata now
        .ok (true, some comment_body)

/-- Embeds `GitHubClient.verify_issue_exists`; `getIssue` is the outcome
of `self.repo.get_issue(issue_number)`. -/
def verify_issue_exists (getIssue : Except Nat Unit) : Except GHError Bool :=
  match getIssue with
  | .ok _ => .ok true
  | .error s =>
      if s = 401 then .error (.auth "Invalid GitHub token")
      else if s = 404 then .ok false
      else .error (.client "Failed to verify issue")

/-- The methods defined on the class `GitHubClient` in
`src/github_client.py` (its entire class body). -/
def githubClientMethods : List String :=
  ["__init__", "post_comment", "_is_duplicate", "_add_metadata_footer",
   "verify_issue_exists", "from_env"]

/-- The parameter names of `GitHubClient.post_comment` after `self`.
A Python call passing a keyword argument outside this list raises
`TypeError` before the method body runs. -/
def postCommentParams : List String := ["issue_number", "body", "metadata"]

/-! ## `src/garmin_client.py` -/

/-- The fields of `daily_sleep_dto` that `get_sleep_data` reads.  Python
truthiness makes a missing (`None`) or zero millisecond timestamp falsy,
so both are kept distinguishable. -/
structure SleepDto where
  sleep_start_timestamp_gmt : Option Nat
  sleep_end_timestamp_gmt : Option Nat
deriving DecidableEq, Repr

/-- Python truthiness of an optional integer: `None` and `0` are falsy. -/
def truthyNat : Option Nat → Bool
  | none => false
  | some n => n ≠ 0

/-- Embeds `GarminClient.get_sleep_data`.  `apiResult` is the outcome of
the `try` block's external call `garth.SleepData.list(target_date, 1)`:
either the raised exception's message or the list of results, each with
its (possibly absent) `daily_sleep_dto`.  The crucial shape: the
`not authenticated` error is raised before the `try` block and
propagates, while the `except Exception` clause catches every error from
the fetch itself and returns `None`.  The returned record keeps the raw
millisecond timestamps; the timezone conversion to civil time is
delegated to the external `datetime` library and no claim depends on it. -/
def get_sleep_data (authenticated : Bool)
    (apiResult : Except String (List (Option SleepDto))) :
    Except String (Option (Nat × Nat)) :=
  if !authenticated then
    .error "Not authenticated. Call authenticate() first."
  else
    match apiResult with
    | .error _ => .ok none
    | .ok sleep_data_list =>
        match sleep_data_list with
        | [] => .ok none
        | first :: _ =>
            match first with
            | none => .ok none
            | some dto =>
                if !(truthyNat dto.sleep_start_timestamp_gmt &&
                     truthyNat dto.sleep_end_timestamp_gmt) then
                  .ok none
                else
                  .ok (some ((dto.sleep_start_timestamp_gmt).getD 0,
                             (dto.sleep_end_timestamp_gmt).getD 0))

/-! ## `scripts/fetch_and_post.py` — exit codes

`main` wraps everything in `try/except Exception: return 1`.  The
embedded exit function takes the outcomes of the external calls as
parameters; `postResult` is the value of
`post_comment(args.issue, formatted_entry)` for the formatted body. -/

/-- Embeds the exit code of `fetch_and_post.main` from the fetch step
onward (argument parsing and repository resolution already done). -/
def fetch_and_post_exit (authenticated : Bool)
    (apiResult : Except String (List (Option SleepDto))) (dryRun : Bool)
    (verifyOutcome : Except Nat Unit)
    (postResult : Except GHError (Bool × Option String)) : Nat :=
  match get_sleep_data authenticated apiResult with
  | .error _ => 1
  | .ok none => 0
  | .ok (some _) =>
      if dryRun then 0
      else
        match verify_issue_exists verifyOutcome with
        | .error _ => 1
        | .ok false => 1
        | .ok true =>
            match postResult with
            | .error _ => 1
            | .ok _ => 0

/-! ## `scripts/quick_note.py` — exit codes

`main` wraps the client calls in `try/except`: `GitHubAuthError` and
`GitHubClientError` exit 1, and the final `except Exception` (which
catches `AttributeError` and `TypeError` from bad attribute and call
use) also exits 1. -/

/-- Embeds the branch of `quick_note.main` taken when
`verify_issue_exists` returned false (the target issue is absent) and
`--dry-run` is off: the script evaluates
`github_client.create_issue(title=note_content, body="")`.  Attribute
lookup on the client consults the class's method table; a missing
attribute raises `AttributeError`, caught by the generic handler, and
the process exits 1 with no issue created. -/
def quick_note_missing_issue_exit : Nat :=
  if githubClientMethods.contains "create_issue" then 0
  else 1

/-- Embeds the branch of `quick_note.main` taken when the issue exists
and `--dry-run` is off: the script calls
`post_comment(args.issue, comment_content, metadata, exact_match=True)`.
A keyword argument not among the method's parameters raises `TypeError`
before the method body runs, caught by the generic handler: exit 1 with
nothing posted. -/
def quick_note_existing_issue_exit : Nat :=
  if postCommentParams.contains "exact_match" then 0
  else 1

/-! ## Association-list lookup lemmas for `pyMerge` -/

theorem lookup_append (l1 l2 : List (String × String)) (k : String) :
    (l1 ++ l2).lookup k =
      match l1.lookup k with
      | some v => some v
      | none => l2.lookup k := by
  induction l1 with
  | nil => simp [List.lookup]
  | cons p t ih =>
      obtain ⟨k0, v0⟩ := p
      simp only [List.cons_append, List.lookup]
      cases k == k0 <;> simp [ih]

theorem lookup_merge_map (a b : List (String × String)) (k : String) :
    (a.map (fun p => (p.1, ((b.lookup p.1).getD p.2)))).lookup k =
      (a.lookup k).map (fun v => (b.lookup k).getD v) := by
  induction a with
  | nil => simp [List.lookup]
  | cons p t ih =>
      obtain ⟨k0, v0⟩ := p
      simp only [List.map_cons, List.lookup]
      cases hk : k == k0
      · simp [ih]
      · have : k = k0 := eq_of_beq hk
        subst this
        simp

theorem lookup_filter_keys_free (a b : List (String × String)) (k : String)
    (ha : a.lookup k = none) :
    (b.filter (fun p => (a.lookup p.1).isNone)).lookup k = b.lookup k := by
  induction b with
  | nil => simp
  | cons p t ih =>
      obtain ⟨k0, v0⟩ := p
      simp only [List.filter_cons]
      cases hk : k == k0
      · cases hp : (a.lookup k0).isNone <;>
          simp [List.lookup, hk, hp, ih]
      · have : k = k0 := eq_of_beq hk
        subst this
        simp [List.lookup, ha, Option.isNone]

theorem pyMerge_lookup_of_right (a b : List (String × String)) (k v : String)
    (hb : b.lookup k = some v) : (pyMerge a b).lookup k = some v := by
  rw [pyMerge, lookup_append, lookup_merge_map]
  cases ha : a.lookup k
  · simp only [Option.map_none']
    rw [lookup_filter_keys_free a b k ha, hb]
  · simp [hb]

theorem pyMerge_lookup_of_none (a b : List (String × String)) (k : String)
    (hb : b.lookup k = none) : (pyMerge a b).lookup k = a.lookup k := by
  rw [pyMerge, lookup_append, lookup_merge_map]
  cases ha : a.lookup k
  · simp only [Option.map_none']
    rw [lookup_filter_keys_free a b k ha, hb]
  · simp [hb]

/-! ## Claim theorems -/

/-- Claim C1: the spec's exact-match duplicate mode does not exist in the
code.  `GitHubClient.post_comment` accepts no `exact_match` parameter,
so `quick_note.py`'s call `post_comment(..., exact_match=True)` raises
`TypeError` and the script exits 1 without posting.  Moreover the
duplicate logic that does exist contradicts the claimed behaviour even
setting the signature aside: a distinct body bearing an already-present
date token is suppressed, and a byte-identical repeat of a quick-note
style body (whose date is not followed by a colon) is not suppressed. -/
theorem exact_match_unsupported :
    postCommentParams.contains "exact_match" = false ∧
    quick_note_existing_issue_exit = 1 ∧
    is_duplicate ["2026-01-06: first note"] "2026-01-06: second note" = true ∧
    is_duplicate ["2026-01-06 08:00:00 - test"] "2026-01-06 08:00:00 - test"
      = false := by
  decide

/-- Claim C2: the class `GitHubClient` defines no `create_issue` method,
so the quick-note flow for a nonexistent issue hits `AttributeError`
and exits 1; no issue is created. -/
theorem create_issue_missing :
    githubClientMethods.contains "create_issue" = false ∧
    quick_note_missing_issue_exit = 1 := by
  decide

/-- Claim C3: an exception raised inside the sleep-data fetch is
swallowed by `get_sleep_data`'s `except Exception` clause, which returns
`None`; `fetch_and_post.main` then takes the graceful no-data branch and
exits 0 — not 1 as the claim (and `get_sleep_data`'s own docstring)
state. -/
theorem fetch_exception_exits_zero :
    get_sleep_data true (.error "connection reset") = .ok none ∧
    fetch_and_post_exit true (.error "connection reset") false (.ok ())
      (.ok (true, none)) = 0 := by
  exact ⟨rfl, rfl⟩

/-- Claim C4: `_is_duplicate` slices `list(issue.get_comments())[:10]`,
the first 10 comments in the ascending listing order — the 10 oldest —
although its own inline comment says "Check last 10 comments".  With 11
comments, a date match in the newest comment (which is among the 10 most
recent) goes undetected, while a match in the oldest comment (which is
older than the 10 most recent) is detected. -/
theorem is_duplicate_window_oldest :
    is_duplicate ((List.replicate 10 "filler note") ++ ["2026-01-06: newest"])
      "2026-01-06: candidate" = false ∧
    is_duplicate (["2026-01-06: oldest"] ++ List.replicate 10 "filler note")
      "2026-01-06: candidate" = true := by
  decide

/-- Claim C5 counterexample: an existing comment on the issue contains
the candidate's date token, yet `post_comment` returns true (and
creates the comment), because the matching comment lies outside the
10-comment slice the code inspects. -/
theorem post_comment_any_comment_false :
    ((List.replicate 10 "filler note") ++ ["2026-01-06: existing"]).any
      (fun c => occursIn ("2026-01-06:").data c.data) = true ∧
    (post_comment (.ok ((List.replicate 10 "filler note") ++
        ["2026-01-06: existing"])) "2026-01-06: candidate" [] "T").map
      Prod.fst = .ok true := by
  decide

/-- Claim C5 as amended: in default mode, for a candidate body whose
extracted date token is `p`, `post_comment` returns false and creates
nothing when a comment among the 10 the code inspects (the first 10 in
listing order) contains `p`, and otherwise creates the body with its
metadata footer and returns true. -/
theorem post_comment_default_mode (comments : List String) (body p : String)
    (md : List (String × String)) (now : String)
    (hp : extractDate body.data = some p) :
    ((comments.take 10).any (fun c => occursIn p.data c.data) = true →
      post_comment (.ok comments) body md now = .ok (false, none)) ∧
    ((comments.take 10).any (fun c => occursIn p.data c.data) = false →
      post_comment (.ok comments) body md now =
        .ok (true, some (add_metadata_footer body md now))) := by
  constructor <;> intro h <;> simp [post_comment, is_duplicate, hp, h]

/-- Claim C5 witness: a concrete run of each branch of the amended
statement. -/
theorem post_comment_default_mode_witness :
    extractDate ("2026-01-06: candidate").data = some "2026-01-06:" ∧
    ((["2026-01-06: existing"].take 10).any
        (fun c => occursIn ("2026-01-06:").data c.data) = true →
      post_comment (.ok ["2026-01-06: existing"]) "2026-01-06: candidate" []
        "T" = .ok (false, none)) ∧
    ((["2026-01-06: existing"].take 10).any
        (fun c => occursIn ("2026-01-06:").data c.data) = false →
      post_comment (.ok ["2026-01-06: existing"]) "2026-01-06: candidate" []
        "T" = .ok (true, some (add_metadata_footer "2026-01-06: candidate" []
          "T"))) :=
  ⟨by decide,
    post_comment_default_mode ["2026-01-06: existing"] "2026-01-06: candidate"
      "2026-01-06:" [] "T" (by decide)⟩

/-- Claim C6 counterexample: for a `GithubException` with status 500,
`verify_issue_exists` raises `GitHubClientError` — it does not return
true as the claim's "true in every other case" requires. -/
theorem verify_issue_exists_500 :
    verify_issue_exists (.error 500) =
      .error (.client "Failed to verify issue") ∧
    verify_issue_exists (.error 500) ≠ .ok true := by
  decide

/-- Claim C6 as amended: `verify_issue_exists` raises the authentication
error exactly on status 401, returns false exactly on status 404,
returns true exactly when the lookup succeeds, and raises the generic
client error on every other failure status. -/
theorem verify_issue_exists_cases :
    (∀ r : Except Nat Unit,
      (verify_issue_exists r = .ok true ↔ r = .ok ())) ∧
    (∀ r : Except Nat Unit,
      (verify_issue_exists r = .ok false ↔ r = .error 404)) ∧
    (∀ r : Except Nat Unit,
      ((∃ m, verify_issue_exists r = .error (.auth m)) ↔ r = .error 401)) ∧
    (∀ s : Nat, s ≠ 401 → s ≠ 404 →
      verify_issue_exists (.error s) =
        .error (.client "Failed to verify issue")) := by
  refine ⟨?_, ?_, ?_, ?_⟩
  · intro r
    cases r with
    | ok u => cases u; simp [verify_issue_exists]
    | error s =>
        simp only [verify_issue_exists]
        split_ifs <;> simp
  · intro r
    cases r with
    | ok u => cases u; simp [verify_issue_exists]
    | error s =>
        simp only [verify_issue_exists]
        split_ifs with h1 h2 <;> simp_all
  · intro r
    cases r with
    | ok u => cases u; simp [verify_issue_exists]
    | error s =>
        simp only [verify_issue_exists]
        split_ifs with h1 h2 <;> simp_all
  · intro s h1 h2
    simp [verify_issue_exists, h1, h2]

/-- Claim C6 witness: concrete instances of each amended clause. -/
theorem verify_issue_exists_cases_witness :
    verify_issue_exists (.ok ()) = .ok true ∧
    verify_issue_exists (.error 404) = .ok false ∧
    verify_issue_exists (.error 500) =
      .error (.client "Failed to verify issue") :=
  ⟨(verify_issue_exists_cases.1 (.ok ())).mpr rfl,
   (verify_issue_exists_cases.2.1 (.error 404)).mpr rfl,
   verify_issue_exists_cases.2.2.2 500 (by decide) (by decide)⟩

/-- Claim C7: `format_sleep_entry` is total and always produces the
fixed template with the same slot renderer in both positions: a present
time renders as zero-padded two-digit `HH:MM`, an absent one as the
placeholder `数据缺失`; the spec's end-to-end example evaluates to the
stated string. -/
theorem format_sleep_entry_template :
    (∀ (d : Date) (s w : Option PyDateTime),
      format_sleep_entry d s w =
        d.isoformat ++ ": 昨日睡觉 " ++ specSlot s ++ " 今天起床 " ++
          specSlot w) ∧
    (∀ t : PyDateTime,
      specSlot (some t) = pad2 t.hour.val ++ ":" ++ pad2 t.minute.val ∧
      (pad2 t.hour.val).length = 2 ∧ (pad2 t.minute.val).length = 2) ∧
    specSlot none = "数据缺失" ∧
    format_sleep_entry ⟨2026, 1, 6⟩
      (some ⟨2026, 1, 5, ⟨23, by decide⟩, ⟨30, by decide⟩⟩)
      (some ⟨2026, 1, 6, ⟨7, by decide⟩, ⟨0, by decide⟩⟩) =
      "2026-01-06: 昨日睡觉 23:30 今天起床 07:00" := by
  refine ⟨fun d s w => ?_, fun t => ⟨rfl, ?_, ?_⟩, rfl, by rfl⟩
  · cases s <;> cases w <;> rfl
  · exact pad2_length (by have := t.hour.isLt; omega)
  · exact pad2_length (by have := t.minute.isLt; omega)

/-- Claim C8: `determine_entry_date` returns the calendar date of the
wake time for every input pair and is independent of the sleep time. -/
theorem determine_entry_date_wake :
    (∀ s w : PyDateTime, determine_entry_date s w = w.date) ∧
    (∀ s1 s2 w : PyDateTime,
      determine_entry_date s1 w = determine_entry_date s2 w) :=
  ⟨fun _ _ => rfl, fun _ _ _ => rfl⟩

/-- Claim C9: whenever `post_comment` actually posts, the created body
is the candidate body, a blank line, and the footer
`<!-- key: value, key: value -->` over the defaults merged with the
caller metadata; caller keys win on collision and the default
`data-source`/`fetched-at` pairs survive when not overridden. -/
theorem post_comment_footer (comments : List String) (body : String)
    (metadata : List (String × String)) (now created : String)
    (h : post_comment (.ok comments) body metadata now =
      .ok (true, some created)) :
    (created = body ++ "\n\n" ++ ("<!-- " ++ String.intercalate ", "
      ((pyMerge (default_metadata now) metadata).map
        (fun p => p.1 ++ ": " ++ p.2)) ++ " -->")) ∧
    (∀ k v, metadata.lookup k = some v →
      (pyMerge (default_metadata now) metadata).lookup k = some v) ∧
    (metadata.lookup "data-source" = none →
      (pyMerge (default_metadata now) metadata).lookup "data-source" =
        some "garmin") ∧
    (metadata.lookup "fetched-at" = none →
      (pyMerge (default_metadata now) metadata).lookup "fetched-at" =
        some now) := by
  refine ⟨?_, ?_, ?_, ?_⟩
  · cases hd : is_duplicate comments body
    · simp only [post_comment, hd, Bool.false_eq_true, if_false,
        Except.ok.injEq, Prod.mk.injEq, Option.some.injEq] at h
      exact h.2.symm
    · simp [post_comment, hd] at h
  · intro k v hkv
    exact pyMerge_lookup_of_right _ _ _ _ hkv
  · intro h0
    rw [pyMerge_lookup_of_none _ _ _ h0]
    rfl
  · intro h0
    rw [pyMerge_lookup_of_none _ _ _ h0]
    rfl

/-- Claim C9 witness: a concrete post through an empty comment list with
one caller-supplied key overriding a default. -/
theorem post_comment_footer_witness :
    (post_comment (.ok []) "hi" [("data-source", "quick-note")] "T" =
      .ok (true, some "hi\n\n<!-- data-source: quick-note, fetched-at: T -->")) ∧
    ("hi\n\n<!-- data-source: quick-note, fetched-at: T -->" =
      "hi" ++ "\n\n" ++ ("<!-- " ++ String.intercalate ", "
        ((pyMerge (default_metadata "T") [("data-source", "quick-note")]).map
          (fun p => p.1 ++ ": " ++ p.2)) ++ " -->")) :=
  ⟨by decide,
    (post_comment_footer [] "hi" [("data-source", "quick-note")] "T"
      "hi\n\n<!-- data-source: quick-note, fetched-at: T -->" (by decide)).1⟩

/-- Claim C10: the post-versus-skip decision and the returned value of
`post_comment` (success boolean or raised error) are the same for any
two metadata arguments; only the created body can differ. -/
theorem post_comment_metadata_independent :
    ∀ (g : Except Nat (List String)) (body : String)
      (m1 m2 : List (String × String)) (now : String),
      (post_comment g body m1 now).map Prod.fst =
        (post_comment g body m2 now).map Prod.fst := by
  intro g body m1 m2 now
  cases g with
  | error s => simp [post_comment]
  | ok comments =>
      cases hd : is_duplicate comments body <;>
        simp [post_comment, hd, Except.map]

end SleepNotes
